import Mathlib

/-!
Shallow embedding of the data-validation stage of the Network-Security ML
pipeline (networksecurity/components/data_validation.py), together with the
artifact records it consumes and produces
(networksecurity/entity/artifact_entity.py).

Modelling conventions:
* a pandas DataFrame is an ordered association list of column name to the
  column's values; values are rationals (exact arithmetic standing for the
  numeric cell values);
* the scipy two-sample KS computation is an external collaborator and is
  passed in as a function `ks` from the two samples to `Except PyError ℚ`
  (its p-value), so that a failing statistical computation can be modelled;
* file-system effects are modelled by an explicit list of performed file
  writes, and their possible failure by a `writeOk` predicate on target
  paths (directory creation failure for a target is folded into the
  failure of writing that target);
* every Python exception escaping a `try` block of the component is wrapped
  into the single domain kind `NetworkSecurityException`, exactly as the
  source's `except Exception as e: raise NetworkSecurityException(e, sys)`.
-/

/-- Equality of `Except` results is decidable when it is on both sides. -/
instance exceptDecEq {ε α : Type} [DecidableEq ε] [DecidableEq α] :
    DecidableEq (Except ε α) := fun a b =>
  match a, b with
  | Except.ok x, Except.ok y =>
    if h : x = y then isTrue (by rw [h])
    else isFalse (fun hc => h (Except.ok.injEq .. ▸ hc))
  | Except.ok _, Except.error _ => isFalse (fun hc => Except.noConfusion hc)
  | Except.error _, Except.ok _ => isFalse (fun hc => Except.noConfusion hc)
  | Except.error x, Except.error y =>
    if h : x = y then isTrue (by rw [h])
    else isFalse (fun hc => h (Except.error.injEq .. ▸ hc))

namespace NetworkSecurity

/-- Primitive error causes that the modelled Python operations can raise:
a read/parse failure of an input file, a missing-key lookup on a DataFrame,
a failure inside the statistical computation, and a failure creating a
directory for or writing an output file. -/
inductive PyError where
  | readError (path : String)
  | keyError (key : String)
  | statError (msg : String)
  | writeError (path : String)
deriving DecidableEq, Repr

/-- The single domain exception kind of the repository
(networksecurity/exception/exception.py); every error escaping the
component is wrapped into it. -/
structure NetworkSecurityException where
  error : PyError
deriving DecidableEq, Repr

/-- A pandas DataFrame: an ordered list of columns, each a name paired with
its values. -/
structure DataFrame where
  cols : List (String × List ℚ)
deriving DecidableEq, Repr

/-- `df.columns` of pandas: the ordered list of column names. -/
def DataFrame.columns (df : DataFrame) : List String :=
  df.cols.map Prod.fst

/-- Column extraction `df[c]` on an association list: the first column named
`c`, or `none` (pandas raises `KeyError`) when no such column exists. -/
def lookupCol : List (String × List ℚ) → String → Option (List ℚ)
  | [], _ => none
  | (n, v) :: rest, c => if n = c then some v else lookupCol rest c

/-- `df[c]` as an `Option`. -/
def DataFrame.get (df : DataFrame) (c : String) : Option (List ℚ) :=
  lookupCol df.cols c

/-- The schema descriptor loaded from the YAML schema file: the ordered
column list (each entry a single-key mapping, represented here by its key)
and the list of required numerical columns. -/
structure SchemaConfig where
  columns : List String
  numerical_columns : List String
deriving DecidableEq, Repr

/-- `DataIngestionArtifact` (networksecurity/entity/artifact_entity.py). -/
structure DataIngestionArtifact where
  trained_file_path : String
  test_file_path : String
deriving DecidableEq, Repr

/-- `DataValidationArtifact` (networksecurity/entity/artifact_entity.py). -/
structure DataValidationArtifact where
  validation_status : Bool
  valid_train_file_path : String
  valid_test_file_path : String
  invalid_train_file_path : String
  invalid_test_file_path : String
  drift_report_file_path : String
deriving DecidableEq, Repr

/-- The path fields of `DataValidationConfig` that `DataValidation` reads
(the configuration object itself lives in
networksecurity/entity/config_entity.py, an external collaborator; only the
attributes accessed by data_validation.py are represented). -/
structure DataValidationConfig where
  valid_data_dir : String
  invalid_data_dir : String
  valid_train_file_path : String
  valid_test_file_path : String
  invalid_train_file_path : String
  invalid_test_file_path : String
  drift_report_file_path : String
deriving DecidableEq, Repr

/-- One entry of the drift report: the exact KS p-value and the per-column
drift decision. -/
structure DriftEntry where
  p_value : ℚ
  drift_status : Bool
deriving DecidableEq, Repr

/-- The drift report: per-column entries in insertion order. -/
abbrev DriftReport := List (String × DriftEntry)

/-- Content written to a file: a CSV serialization of a DataFrame
(`to_csv`) or a YAML serialization of a drift report (`write_yaml_file`). -/
inductive FileContent where
  | csv (df : DataFrame)
  | yaml (report : DriftReport)
deriving DecidableEq, Repr

/-- A performed file write: target path and content. -/
abbrev FileWrite := String × FileContent

/-- `DataValidation.validate_number_of_columns`: compares the dataframe's
column count with the length of the schema's `columns` list and nothing
else. -/
def validate_number_of_columns (schema : SchemaConfig) (df : DataFrame) : Bool :=
  if df.columns.length = schema.columns.length then true else false

/-- The `missing_numerical_columns` accumulation loop inside
`DataValidation.is_numerical_column_exist`: the schema's numerical columns
that do not occur among the dataframe's columns, in schema order. -/
def missing_numerical_columns (schema : SchemaConfig) (df : DataFrame) : List String :=
  schema.numerical_columns.filter (fun column => decide (column ∉ df.columns))

/-- `DataValidation.is_numerical_column_exist`: false when at least one
required numerical column is missing, true otherwise. -/
def is_numerical_column_exist (schema : SchemaConfig) (df : DataFrame) : Bool :=
  if (missing_numerical_columns schema df).length > 0 then false else true

/-- The per-column loop of `DataValidation.detect_dataset_drift`: iterate
the base dataframe's columns in order; for each, extract the current
dataframe's column of the same name (a missing one raises `KeyError`), run
the KS computation, and decide drift by `p_value >= threshold`; accumulate
the overall drift flag (an OR) and the report entries in iteration order. -/
def driftScan (ks : List ℚ → List ℚ → Except PyError ℚ) (current_df : DataFrame)
    (threshold : ℚ) : List (String × List ℚ) → Except PyError (Bool × DriftReport)
  | [] => Except.ok (false, [])
  | (column, d1) :: rest =>
    match current_df.get column with
    | none => Except.error (PyError.keyError column)
    | some d2 =>
      match ks d1 d2 with
      | Except.error e => Except.error e
      | Except.ok p =>
        let is_found := if p ≥ threshold then false else true
        match driftScan ks current_df threshold rest with
        | Except.error e => Except.error e
        | Except.ok (drift_rest, report_rest) =>
          Except.ok (is_found || drift_rest, (column, ⟨p, is_found⟩) :: report_rest)

/-- `DataValidation.detect_dataset_drift`: run the per-column KS loop over
the base dataframe, then persist the report to the configured drift-report
path; return the overall drift flag together with the performed writes.
The default threshold is the source's `0.05`, written `mkRat 1 20`. Any
error escaping the body is wrapped into `NetworkSecurityException`. -/
def detect_dataset_drift (cfg : DataValidationConfig)
    (ks : List ℚ → List ℚ → Except PyError ℚ) (writeOk : String → Bool)
    (base_df current_df : DataFrame) (threshold : ℚ := mkRat 1 20) :
    Except NetworkSecurityException (Bool × List FileWrite) :=
  match driftScan ks current_df threshold base_df.cols with
  | Except.error e => Except.error ⟨e⟩
  | Except.ok (drift_status, report) =>
    if writeOk cfg.drift_report_file_path then
      Except.ok (drift_status,
        [(cfg.drift_report_file_path, FileContent.yaml report)])
    else
      Except.error ⟨PyError.writeError cfg.drift_report_file_path⟩

/-- `os.path.basename` for forward-slash paths: the final path component
(the characters after the last slash). -/
def basename (path : String) : String :=
  String.mk ((path.data.reverse.takeWhile (fun c => c != '/')).reverse)

/-- Does the first character list begin the second? Used to state the
valid/invalid destination routing. -/
def listStarts : List Char → List Char → Bool
  | [], _ => true
  | _ :: _, [] => false
  | a :: as, b :: bs => a == b && listStarts as bs

/-- `path` lies under directory `dir` when `dir ++ "/"` begins it. -/
def underDir (dir path : String) : Bool :=
  listStarts (dir ++ "/").data path.data

/-- Modelled from the spec: the output path layout supplied by
`DataValidationConfig` (networksecurity/entity/config_entity.py is an
external collaborator, not among the modelled sources). Per the spec, the
configured destination file paths place each dataset inside the
corresponding destination directory under the original input file's
basename. -/
def SpecConfigPaths (cfg : DataValidationConfig) (ingestion : DataIngestionArtifact) : Prop :=
  cfg.valid_train_file_path =
    (cfg.valid_data_dir ++ "/") ++ basename ingestion.trained_file_path ∧
  cfg.valid_test_file_path =
    (cfg.valid_data_dir ++ "/") ++ basename ingestion.test_file_path ∧
  cfg.invalid_train_file_path =
    (cfg.invalid_data_dir ++ "/") ++ basename ingestion.trained_file_path ∧
  cfg.invalid_test_file_path =
    (cfg.invalid_data_dir ++ "/") ++ basename ingestion.test_file_path

/-- The dataset (CSV) writes among a run's file writes. -/
def csvWrites (ws : List FileWrite) : List FileWrite :=
  ws.filter (fun w =>
    match w.2 with
    | FileContent.csv _ => true
    | FileContent.yaml _ => false)

/-- `DataValidation.initiate_data_validation`: read both datasets, run the
four structural checks sequentially (never short-circuiting), accumulate
`validation_status`, run drift detection only when the status is true,
route the unmodified datasets to the valid or invalid destination according
to the status alone, and return the artifact populated with every
configured path. The result pairs the artifact with the list of performed
file writes; any escaping error is the wrapped domain exception. -/
def initiate_data_validation (schema : SchemaConfig) (cfg : DataValidationConfig)
    (ingestion : DataIngestionArtifact)
    (read : String → Except PyError DataFrame)
    (ks : List ℚ → List ℚ → Except PyError ℚ)
    (writeOk : String → Bool) :
    Except NetworkSecurityException (DataValidationArtifact × List FileWrite) :=
  let train_file_path := ingestion.trained_file_path
  let test_file_path := ingestion.test_file_path
  match read train_file_path with
  | Except.error e => Except.error ⟨e⟩
  | Except.ok train_dataframe =>
    match read test_file_path with
    | Except.error e => Except.error ⟨e⟩
    | Except.ok test_dataframe =>
      let validation_status := true
      let status := validate_number_of_columns schema train_dataframe
      let validation_status := if !status then false else validation_status
      let status := validate_number_of_columns schema test_dataframe
      let validation_status := if !status then false else validation_status
      let status := is_numerical_column_exist schema train_dataframe
      let validation_status := if !status then false else validation_status
      let status := is_numerical_column_exist schema test_dataframe
      let validation_status := if !status then false else validation_status
      let driftResult : Except NetworkSecurityException (List FileWrite) :=
        if validation_status then
          match detect_dataset_drift cfg ks writeOk train_dataframe test_dataframe with
          | Except.ok (_drift_status, w) => Except.ok w
          | Except.error e => Except.error e
        else Except.ok []
      match driftResult with
      | Except.error e => Except.error e
      | Except.ok driftWrites =>
        let csvTargets : String × String :=
          if validation_status then
            (cfg.valid_train_file_path, cfg.valid_test_file_path)
          else
            (cfg.invalid_train_file_path, cfg.invalid_test_file_path)
        if writeOk csvTargets.1 then
          if writeOk csvTargets.2 then
            Except.ok
              ({ validation_status := validation_status,
                 valid_train_file_path := cfg.valid_train_file_path,
                 valid_test_file_path := cfg.valid_test_file_path,
                 invalid_train_file_path := cfg.invalid_train_file_path,
                 invalid_test_file_path := cfg.invalid_test_file_path,
                 drift_report_file_path := cfg.drift_report_file_path },
               driftWrites ++
                 [(csvTargets.1, FileContent.csv train_dataframe),
                  (csvTargets.2, FileContent.csv test_dataframe)])
          else Except.error ⟨PyError.writeError csvTargets.2⟩
        else Except.error ⟨PyError.writeError csvTargets.1⟩

/-- Sample schema used by the concrete witnesses: two columns, one of them
numerical. -/
def sampleSchema : SchemaConfig := ⟨["a", "b"], ["a"]⟩

/-- Sample validation configuration used by the concrete witnesses. -/
def sampleCfg : DataValidationConfig :=
  ⟨"valid_dir", "invalid_dir", "valid_dir/train.csv", "valid_dir/test.csv",
    "invalid_dir/train.csv", "invalid_dir/test.csv", "drift/report.yaml"⟩

/-- Sample ingestion artifact used by the concrete witnesses. -/
def sampleIngestion : DataIngestionArtifact := ⟨"data/train.csv", "data/test.csv"⟩

/-- Sample train dataset used by the concrete witnesses. -/
def sampleTrain : DataFrame := ⟨[("a", [0]), ("b", [0])]⟩

/-- Sample test dataset used by the concrete witnesses. -/
def sampleTest : DataFrame := ⟨[("a", [0]), ("b", [0])]⟩

/-- Sample dataset reader used by the concrete witnesses. -/
def sampleRead : String → Except PyError DataFrame := fun p =>
  if p = "data/train.csv" then Except.ok sampleTrain
  else if p = "data/test.csv" then Except.ok sampleTest
  else Except.error (PyError.readError p)

/-- Sample KS collaborator used by the concrete witnesses: always succeeds
with p-value 1. -/
def sampleKs : List ℚ → List ℚ → Except PyError ℚ := fun _ _ => Except.ok 1

/-- The artifact produced by the sample run of the orchestrator. -/
def sampleArtifact : DataValidationArtifact :=
  ⟨true, "valid_dir/train.csv", "valid_dir/test.csv",
    "invalid_dir/train.csv", "invalid_dir/test.csv", "drift/report.yaml"⟩

/-- The drift report produced by the sample run of the orchestrator. -/
def sampleReport : DriftReport := [("a", ⟨1, false⟩), ("b", ⟨1, false⟩)]

/-- The file writes performed by the sample run of the orchestrator. -/
def sampleWrites : List FileWrite :=
  [("drift/report.yaml", FileContent.yaml sampleReport),
    ("valid_dir/train.csv", FileContent.csv sampleTrain),
    ("valid_dir/test.csv", FileContent.csv sampleTest)]

/-! ### Helper lemmas -/

theorem lookupCol_eq_none_iff (l : List (String × List ℚ)) (c : String) :
    lookupCol l c = none ↔ c ∉ l.map Prod.fst := by
  induction l with
  | nil => simp [lookupCol]
  | cons hd tl ih =>
    obtain ⟨n, v⟩ := hd
    by_cases hn : n = c
    · subst hn; simp [lookupCol]
    · simp [lookupCol, hn, ih, Ne.symm hn]

theorem get_eq_none_iff (df : DataFrame) (c : String) :
    df.get c = none ↔ c ∉ df.columns := by
  simpa [DataFrame.get, DataFrame.columns] using lookupCol_eq_none_iff df.cols c

theorem get_isSome_iff (df : DataFrame) (c : String) :
    (∃ v, df.get c = some v) ↔ c ∈ df.columns := by
  rcases h : df.get c with _ | v
  · rw [get_eq_none_iff] at h
    simp [h]
  · have : c ∈ df.columns := by
      by_contra hc
      rw [← get_eq_none_iff] at hc
      rw [h] at hc
      exact Option.noConfusion hc
    simp [this]

/-- The drift decision of the source (`if p_value >= threshold` then
no drift else drift) is exactly the strict comparison `p_value < threshold`. -/
theorem drift_decision_eq (p t : ℚ) :
    (if p ≥ t then false else true) = decide (p < t) := by
  rcases le_or_lt t p with hle | hlt
  · simp [hle, not_lt.mpr hle]
  · simp [hlt, not_le.mpr hlt]

/-- Master specification of the per-column KS loop on a successful run:
the report's keys are exactly the base columns in order, the overall flag
is the OR of the per-column decisions, each decision is the strict
threshold comparison of its recorded p-value, and each recorded p-value is
the exact value returned by the KS computation on the two extracted
columns. -/
theorem driftScan_ok_spec (ks : List ℚ → List ℚ → Except PyError ℚ)
    (cur : DataFrame) (t : ℚ) (base : List (String × List ℚ)) :
    ∀ (s : Bool) (r : DriftReport), driftScan ks cur t base = Except.ok (s, r) →
      r.map Prod.fst = base.map Prod.fst ∧
      s = r.any (fun e => e.2.drift_status) ∧
      (∀ c e, (c, e) ∈ r → e.drift_status = decide (e.p_value < t)) ∧
      (∀ c e, (c, e) ∈ r →
        ∃ d1 d2, (c, d1) ∈ base ∧ cur.get c = some d2 ∧ ks d1 d2 = Except.ok e.p_value) := by
  induction base with
  | nil =>
    intro s r h
    simp only [driftScan, Except.ok.injEq, Prod.mk.injEq] at h
    obtain ⟨hs, hr⟩ := h
    subst hs; subst hr
    simp
  | cons hd rest ih =>
    obtain ⟨column, d1⟩ := hd
    intro s r h
    simp only [driftScan] at h
    split at h
    · exact absurd h (by simp)
    · rename_i d2 hget
      split at h
      · exact absurd h (by simp)
      · rename_i p hks
        split at h
        · exact absurd h (by simp)
        · rename_i drift_rest report_rest hrec
          simp only [Except.ok.injEq, Prod.mk.injEq] at h
          obtain ⟨hs, hr⟩ := h
          obtain ⟨h1, h2, h3, h4⟩ := ih drift_rest report_rest hrec
          subst hs; subst hr
          refine ⟨by simp [h1], by simp [List.any_cons, h2], ?_, ?_⟩
          · intro c e hmem
            rcases List.mem_cons.mp hmem with hhd | htl
            · have hc : c = column := congrArg Prod.fst hhd
              have he : e = ⟨p, if p ≥ t then false else true⟩ := congrArg Prod.snd hhd
              subst hc; subst he
              exact drift_decision_eq p t
            · exact h3 c e htl
          · intro c e hmem
            rcases List.mem_cons.mp hmem with hhd | htl
            · have hc : c = column := congrArg Prod.fst hhd
              have he : e = ⟨p, if p ≥ t then false else true⟩ := congrArg Prod.snd hhd
              subst hc; subst he
              exact ⟨d1, d2, List.mem_cons_self _ _, hget, hks⟩
            · obtain ⟨e1, e2, hm, hg, hk⟩ := h4 c e htl
              exact ⟨e1, e2, List.mem_cons_of_mem _ hm, hg, hk⟩

/-- A successful drift scan requires every base column to be extractable
from the current dataframe. -/
theorem driftScan_ok_columns (ks : List ℚ → List ℚ → Except PyError ℚ)
    (cur : DataFrame) (t : ℚ) (base : List (String × List ℚ))
    (s : Bool) (r : DriftReport) (h : driftScan ks cur t base = Except.ok (s, r)) :
    ∀ c ∈ base.map Prod.fst, c ∈ cur.columns := by
  obtain ⟨h1, _, _, h4⟩ := driftScan_ok_spec ks cur t base s r h
  intro c hc
  rw [← h1] at hc
  obtain ⟨x, hmem, hfst⟩ := List.mem_map.mp hc
  obtain ⟨c', e⟩ := x
  have hc' : c' = c := hfst
  subst hc'
  obtain ⟨d1, d2, _, hg, _⟩ := h4 c' e hmem
  exact (get_isSome_iff cur c').mp ⟨d2, hg⟩

/-- Shape of a successful `detect_dataset_drift` run: a successful scan,
a permitted report write, and exactly the report write performed. -/
theorem detect_ok_elim (cfg : DataValidationConfig)
    (ks : List ℚ → List ℚ → Except PyError ℚ) (writeOk : String → Bool)
    (base_df current_df : DataFrame) (t : ℚ) (s : Bool) (w : List FileWrite)
    (h : detect_dataset_drift cfg ks writeOk base_df current_df t = Except.ok (s, w)) :
    ∃ r : DriftReport, driftScan ks current_df t base_df.cols = Except.ok (s, r) ∧
      writeOk cfg.drift_report_file_path = true ∧
      w = [(cfg.drift_report_file_path, FileContent.yaml r)] := by
  unfold detect_dataset_drift at h
  split at h
  · exact absurd h (by simp)
  · rename_i ds r hscan
    split at h
    · rename_i hw
      simp only [Except.ok.injEq, Prod.mk.injEq] at h
      obtain ⟨hs, hwr⟩ := h
      subst hs
      exact ⟨r, hscan, hw, hwr.symm⟩
    · exact absurd h (by simp)

/-! ### Structural-check claims -/

/-- C7: `validate_number_of_columns` returns true exactly when the
dataframe's column count equals the schema's column count, independently of
the column names; for any other count it returns false. -/
theorem validate_number_of_columns_count_only (schema : SchemaConfig) (df : DataFrame) :
    (validate_number_of_columns schema df = true ↔
      df.columns.length = schema.columns.length) ∧
    (validate_number_of_columns schema df = false ↔
      df.columns.length ≠ schema.columns.length) := by
  unfold validate_number_of_columns
  by_cases h : df.columns.length = schema.columns.length <;> simp [h]

/-- C6: `is_numerical_column_exist` returns true exactly when every schema
numerical column occurs among the dataframe's columns, and the enumerated
missing columns are exactly the schema's numerical columns that are absent
from the dataframe; the check is a total function (it never raises). -/
theorem is_numerical_column_exist_spec (schema : SchemaConfig) (df : DataFrame) :
    (is_numerical_column_exist schema df = true ↔
      ∀ c ∈ schema.numerical_columns, c ∈ df.columns) ∧
    (∀ c, c ∈ missing_numerical_columns schema df ↔
      c ∈ schema.numerical_columns ∧ c ∉ df.columns) := by
  have hmem : ∀ c, c ∈ missing_numerical_columns schema df ↔
      c ∈ schema.numerical_columns ∧ c ∉ df.columns := by
    intro c
    simp [missing_numerical_columns, List.mem_filter]
  refine ⟨?_, hmem⟩
  by_cases h : (missing_numerical_columns schema df).length > 0
  · simp only [is_numerical_column_exist, if_pos h]
    constructor
    · intro hfalse; exact absurd hfalse (by simp)
    · intro hall
      exfalso
      have hnil : missing_numerical_columns schema df = [] := by
        unfold missing_numerical_columns
        rw [List.filter_eq_nil_iff]
        intro a ha
        simp [hall a ha]
      rw [hnil] at h
      exact absurd h (by simp)
  · simp only [is_numerical_column_exist, if_neg h]
    have hnil : missing_numerical_columns schema df = [] :=
      List.length_eq_zero.mp (Nat.eq_zero_of_not_pos h)
    constructor
    · intro _ c hc
      by_contra hnc
      have : c ∈ missing_numerical_columns schema df := (hmem c).mpr ⟨hc, hnc⟩
      rw [hnil] at this
      exact absurd this (by simp)
    · intro _; trivial

/-! ### Drift-detection claims -/

/-- C2: on a successful `detect_dataset_drift` run, every compared column's
recorded `drift_status` equals the strict comparison `p_value < threshold`
(so a p-value exactly equal to the threshold yields `drift_status = false`),
and the returned overall drift flag is true exactly when at least one
compared column has `drift_status = true`. -/
theorem detect_dataset_drift_threshold_decision (cfg : DataValidationConfig)
    (ks : List ℚ → List ℚ → Except PyError ℚ) (writeOk : String → Bool)
    (base_df current_df : DataFrame) (t : ℚ) (s : Bool) (w : List FileWrite)
    (h : detect_dataset_drift cfg ks writeOk base_df current_df t = Except.ok (s, w)) :
    ∃ report : DriftReport,
      w = [(cfg.drift_report_file_path, FileContent.yaml report)] ∧
      (∀ c e, (c, e) ∈ report → e.drift_status = decide (e.p_value < t)) ∧
      (s = true ↔ ∃ c e, (c, e) ∈ report ∧ e.drift_status = true) := by
  obtain ⟨r, hscan, hw, hwr⟩ := detect_ok_elim cfg ks writeOk base_df current_df t s w h
  obtain ⟨h1, h2, h3, h4⟩ := driftScan_ok_spec ks current_df t base_df.cols s r hscan
  refine ⟨r, hwr, h3, ?_⟩
  rw [h2]
  constructor
  · intro hany
    obtain ⟨x, hx, hxs⟩ := List.any_eq_true.mp hany
    exact ⟨x.1, x.2, hx, hxs⟩
  · rintro ⟨c, e, hmem, he⟩
    exact List.any_eq_true.mpr ⟨(c, e), hmem, he⟩

/-- Witness for the C2 theorem: a run whose single column's p-value equals
the threshold exactly, so its `drift_status` is false and so is the overall
flag. -/
theorem detect_dataset_drift_threshold_decision_witness :
    ∃ report : DriftReport,
      [(("drift/report.yaml" : String),
          FileContent.yaml [("a", ⟨mkRat 1 20, false⟩)])] =
        [("drift/report.yaml", FileContent.yaml report)] ∧
      (∀ c e, (c, e) ∈ report → e.drift_status = decide (e.p_value < mkRat 1 20)) ∧
      (false = true ↔ ∃ c e, (c, e) ∈ report ∧ e.drift_status = true) :=
  detect_dataset_drift_threshold_decision
    ⟨"valid", "invalid", "valid/train.csv", "valid/test.csv",
      "invalid/train.csv", "invalid/test.csv", "drift/report.yaml"⟩
    (fun _ _ => Except.ok (mkRat 1 20)) (fun _ => true)
    ⟨[("a", [0])]⟩ ⟨[("a", [1])]⟩ (mkRat 1 20) false
    [("drift/report.yaml", FileContent.yaml [("a", ⟨mkRat 1 20, false⟩)])]
    (by decide)

/-- C5: on a successful `detect_dataset_drift` run over a base dataframe
with distinct column names, the persisted report has exactly the base
dataframe's columns as keys, in the base dataframe's column order and
without duplicates; each entry records the exact p-value returned by the KS
computation on the extracted columns; and a column absent from the base
dataframe never appears in the report. -/
theorem detect_dataset_drift_report_shape (cfg : DataValidationConfig)
    (ks : List ℚ → List ℚ → Except PyError ℚ) (writeOk : String → Bool)
    (base_df current_df : DataFrame) (t : ℚ) (s : Bool) (w : List FileWrite)
    (hnd : base_df.columns.Nodup)
    (h : detect_dataset_drift cfg ks writeOk base_df current_df t = Except.ok (s, w)) :
    ∃ report : DriftReport,
      w = [(cfg.drift_report_file_path, FileContent.yaml report)] ∧
      report.map Prod.fst = base_df.columns ∧
      (report.map Prod.fst).Nodup ∧
      (∀ c e, (c, e) ∈ report →
        ∃ d1 d2, (c, d1) ∈ base_df.cols ∧ current_df.get c = some d2 ∧
          ks d1 d2 = Except.ok e.p_value) ∧
      (∀ c, c ∉ base_df.columns → ∀ e, (c, e) ∉ report) := by
  obtain ⟨r, hscan, hw, hwr⟩ := detect_ok_elim cfg ks writeOk base_df current_df t s w h
  obtain ⟨h1, h2, h3, h4⟩ := driftScan_ok_spec ks current_df t base_df.cols s r hscan
  have hkeys : r.map Prod.fst = base_df.columns := h1
  refine ⟨r, hwr, hkeys, by rw [hkeys]; exact hnd, h4, ?_⟩
  intro c hc e hmem
  apply hc
  rw [← hkeys]
  exact List.mem_map.mpr ⟨(c, e), hmem, rfl⟩

/-- Witness for the C5 theorem: a current-only column "c" does not appear
in the report, which lists exactly the base columns "a", "b" in order. -/
theorem detect_dataset_drift_report_shape_witness :
    ∃ report : DriftReport,
      [(("drift/report.yaml" : String),
          FileContent.yaml [("a", ⟨1, false⟩), ("b", ⟨1, false⟩)])] =
        [("drift/report.yaml", FileContent.yaml report)] ∧
      report.map Prod.fst = DataFrame.columns ⟨[("a", [0]), ("b", [0])]⟩ ∧
      (report.map Prod.fst).Nodup ∧
      (∀ c e, (c, e) ∈ report →
        ∃ d1 d2, (c, d1) ∈ ([("a", [(0:ℚ)]), ("b", [0])] : List (String × List ℚ)) ∧
          DataFrame.get ⟨[("a", [0]), ("b", [0]), ("c", [5])]⟩ c = some d2 ∧
          (fun _ _ => (Except.ok 1 : Except PyError ℚ)) d1 d2 = Except.ok e.p_value) ∧
      (∀ c, c ∉ DataFrame.columns ⟨[("a", [0]), ("b", [0])]⟩ → ∀ e, (c, e) ∉ report) :=
  detect_dataset_drift_report_shape
    ⟨"valid", "invalid", "valid/train.csv", "valid/test.csv",
      "invalid/train.csv", "invalid/test.csv", "drift/report.yaml"⟩
    (fun _ _ => Except.ok 1) (fun _ => true)
    ⟨[("a", [0]), ("b", [0])]⟩ ⟨[("a", [0]), ("b", [0]), ("c", [5])]⟩ (mkRat 1 20) false
    [("drift/report.yaml", FileContent.yaml [("a", ⟨1, false⟩), ("b", ⟨1, false⟩)])]
    (by decide) (by decide)

/-- C9: `detect_dataset_drift` completes successfully only when every base
column also exists in the current dataframe; when some base column is
missing there, the per-column extraction fails and the operation returns
the wrapped domain exception. -/
theorem detect_dataset_drift_requires_base_columns (cfg : DataValidationConfig)
    (ks : List ℚ → List ℚ → Except PyError ℚ) (writeOk : String → Bool)
    (base_df current_df : DataFrame) (t : ℚ) :
    (∀ s w, detect_dataset_drift cfg ks writeOk base_df current_df t = Except.ok (s, w) →
      ∀ c ∈ base_df.columns, c ∈ current_df.columns) ∧
    ((∃ c ∈ base_df.columns, c ∉ current_df.columns) →
      ∃ e : NetworkSecurityException,
        detect_dataset_drift cfg ks writeOk base_df current_df t = Except.error e) := by
  have hok : ∀ s w,
      detect_dataset_drift cfg ks writeOk base_df current_df t = Except.ok (s, w) →
      ∀ c ∈ base_df.columns, c ∈ current_df.columns := by
    intro s w h
    obtain ⟨r, hscan, _, _⟩ := detect_ok_elim cfg ks writeOk base_df current_df t s w h
    exact driftScan_ok_columns ks current_df t base_df.cols s r hscan
  refine ⟨hok, ?_⟩
  rintro ⟨c, hcb, hcc⟩
  cases hres : detect_dataset_drift cfg ks writeOk base_df current_df t with
  | error e => exact ⟨e, rfl⟩
  | ok pr =>
    obtain ⟨s, w⟩ := pr
    exact absurd (hok s w hres c hcb) hcc

/-! ### Orchestrator infrastructure -/

theorem listStarts_self_append (xs ys : List Char) :
    listStarts xs (xs ++ ys) = true := by
  induction xs with
  | nil => rfl
  | cons a as ih => simp [listStarts, ih]

theorem underDir_append (dir rest : String) :
    underDir dir ((dir ++ "/") ++ rest) = true := by
  unfold underDir
  rw [String.data_append]
  exact listStarts_self_append _ _

/-- The source's sequential accumulation of `validation_status` (start at
true, clear on each failing check) equals the conjunction of the four
checks. -/
theorem seqStatus (s1 s2 s3 s4 : Bool) :
    (if !s4 then false else
      if !s3 then false else
        if !s2 then false else
          if !s1 then false else true) = (s1 && s2 && s3 && s4) := by
  cases s1 <;> cases s2 <;> cases s3 <;> cases s4 <;> rfl

/-- A successful orchestrator run presupposes that both input reads
succeeded. -/
theorem initiate_ok_reads (schema : SchemaConfig) (cfg : DataValidationConfig)
    (ingestion : DataIngestionArtifact) (read : String → Except PyError DataFrame)
    (ks : List ℚ → List ℚ → Except PyError ℚ) (writeOk : String → Bool)
    (pr : DataValidationArtifact × List FileWrite)
    (h : initiate_data_validation schema cfg ingestion read ks writeOk = Except.ok pr) :
    ∃ train test, read ingestion.trained_file_path = Except.ok train ∧
      read ingestion.test_file_path = Except.ok test := by
  simp only [initiate_data_validation] at h
  split at h
  · exact absurd h (by simp)
  · rename_i train htrain
    split at h
    · exact absurd h (by simp)
    · rename_i test htest
      exact ⟨train, test, htrain, htest⟩

/-- Characterization of a successful orchestrator run: the artifact is
fully populated from the configuration with the four-way conjunction as its
status; when the status is true the writes are the drift report followed by
the two valid-destination CSVs, and when it is false they are exactly the
two invalid-destination CSVs. -/
theorem initiate_ok_spec (schema : SchemaConfig) (cfg : DataValidationConfig)
    (ingestion : DataIngestionArtifact) (read : String → Except PyError DataFrame)
    (ks : List ℚ → List ℚ → Except PyError ℚ) (writeOk : String → Bool)
    (train test : DataFrame) (artifact : DataValidationArtifact) (writes : List FileWrite)
    (htr : read ingestion.trained_file_path = Except.ok train)
    (hte : read ingestion.test_file_path = Except.ok test)
    (h : initiate_data_validation schema cfg ingestion read ks writeOk =
      Except.ok (artifact, writes)) :
    artifact = { validation_status :=
                   validate_number_of_columns schema train &&
                   validate_number_of_columns schema test &&
                   is_numerical_column_exist schema train &&
                   is_numerical_column_exist schema test,
                 valid_train_file_path := cfg.valid_train_file_path,
                 valid_test_file_path := cfg.valid_test_file_path,
                 invalid_train_file_path := cfg.invalid_train_file_path,
                 invalid_test_file_path := cfg.invalid_test_file_path,
                 drift_report_file_path := cfg.drift_report_file_path } ∧
    (artifact.validation_status = true →
      ∃ ds report,
        detect_dataset_drift cfg ks writeOk train test (mkRat 1 20) =
          Except.ok (ds, [(cfg.drift_report_file_path, FileContent.yaml report)]) ∧
        writes = [(cfg.drift_report_file_path, FileContent.yaml report),
                  (cfg.valid_train_file_path, FileContent.csv train),
                  (cfg.valid_test_file_path, FileContent.csv test)]) ∧
    (artifact.validation_status = false →
      writes = [(cfg.invalid_train_file_path, FileContent.csv train),
                (cfg.invalid_test_file_path, FileContent.csv test)]) := by
  simp only [initiate_data_validation, htr, hte] at h
  rw [seqStatus] at h
  cases hB : (validate_number_of_columns schema train &&
      validate_number_of_columns schema test &&
      is_numerical_column_exist schema train &&
      is_numerical_column_exist schema test) with
  | false =>
    rw [hB] at h
    simp only [Bool.false_eq_true, if_false] at h
    split at h
    · split at h
      · simp only [Except.ok.injEq, Prod.mk.injEq] at h
        obtain ⟨ha, hw⟩ := h
        subst ha
        refine ⟨by simp [hB], by simp, ?_⟩
        intro _
        simpa using hw.symm
      · exact absurd h (by simp)
    · exact absurd h (by simp)
  | true =>
    rw [hB] at h
    simp only [if_true] at h
    cases hd : detect_dataset_drift cfg ks writeOk train test (mkRat 1 20) with
    | error e => rw [hd] at h; exact absurd h (by simp)
    | ok pr =>
      obtain ⟨ds, dw⟩ := pr
      obtain ⟨report, _, _, hdw⟩ :=
        detect_ok_elim cfg ks writeOk train test (mkRat 1 20) ds dw hd
      rw [hd] at h
      simp only at h
      split at h
      · split at h
        · simp only [Except.ok.injEq, Prod.mk.injEq] at h
          obtain ⟨ha, hw⟩ := h
          subst ha
          refine ⟨by simp [hB], ?_, by simp⟩
          intro _
          refine ⟨ds, report, by rw [hdw], ?_⟩
          rw [← hw, hdw]
          simp
        · exact absurd h (by simp)
      · exact absurd h (by simp)

/-- A pair whose first component differs from both keys is not a member of
a two-element write list. -/
theorem not_mem_pair_of_fst_ne (p q1 q2 : String) (c x y : FileContent)
    (h1 : p ≠ q1) (h2 : p ≠ q2) :
    (p, c) ∉ ([(q1, x), (q2, y)] : List FileWrite) := by
  intro hmem
  rcases List.mem_cons.mp hmem with he | hmem2
  · exact h1 (congrArg Prod.fst he)
  · rcases List.mem_cons.mp hmem2 with he | hmem3
    · exact h2 (congrArg Prod.fst he)
    · exact absurd hmem3 (by simp)

/-- A pair whose first component differs from all three keys is not a
member of a three-element write list. -/
theorem not_mem_triple_of_fst_ne (p q1 q2 q3 : String) (c x y z : FileContent)
    (h1 : p ≠ q1) (h2 : p ≠ q2) (h3 : p ≠ q3) :
    (p, c) ∉ ([(q1, x), (q2, y), (q3, z)] : List FileWrite) := by
  intro hmem
  rcases List.mem_cons.mp hmem with he | hmem2
  · exact h1 (congrArg Prod.fst he)
  · exact not_mem_pair_of_fst_ne p q2 q3 c y z h2 h3 hmem2

/-! ### Orchestrator claims -/

/-- C1: in `initiate_data_validation` the accumulated `validation_status`
equals the conjunction of the four structural checks (column count on the
train and test dataframes, numerical presence on the train and test
dataframes), so it is true exactly when all four pass. All four checks
enter the result (the sequential accumulation never short-circuits), and
since the right-hand side does not mention the KS collaborator `ks` — over
which this theorem is universally quantified — the result of drift
detection never changes `validation_status`. -/
theorem initiate_validation_status_conjunction (schema : SchemaConfig)
    (cfg : DataValidationConfig) (ingestion : DataIngestionArtifact)
    (read : String → Except PyError DataFrame)
    (ks : List ℚ → List ℚ → Except PyError ℚ) (writeOk : String → Bool)
    (train test : DataFrame) (artifact : DataValidationArtifact)
    (writes : List FileWrite)
    (htr : read ingestion.trained_file_path = Except.ok train)
    (hte : read ingestion.test_file_path = Except.ok test)
    (h : initiate_data_validation schema cfg ingestion read ks writeOk =
      Except.ok (artifact, writes)) :
    artifact.validation_status =
      (validate_number_of_columns schema train &&
       validate_number_of_columns schema test &&
       is_numerical_column_exist schema train &&
       is_numerical_column_exist schema test) := by
  obtain ⟨ha, -, -⟩ := initiate_ok_spec schema cfg ingestion read ks writeOk
    train test artifact writes htr hte h
  rw [ha]

/-- Witness for the C1 theorem: the sample run, on which all four checks
pass and the artifact's status is true. -/
theorem initiate_validation_status_conjunction_witness :
    sampleArtifact.validation_status =
      (validate_number_of_columns sampleSchema sampleTrain &&
       validate_number_of_columns sampleSchema sampleTest &&
       is_numerical_column_exist sampleSchema sampleTrain &&
       is_numerical_column_exist sampleSchema sampleTest) :=
  initiate_validation_status_conjunction sampleSchema sampleCfg sampleIngestion
    sampleRead sampleKs (fun _ => true) sampleTrain sampleTest sampleArtifact
    sampleWrites (by decide) (by decide) (by decide)

/-- C4: on a successful orchestrator run, the drift detector is invoked on
train against test exactly when `validation_status` is true — then its
report write is among the run's writes — and when the status is false no
drift report (no YAML write at all) is produced by the run. -/
theorem initiate_drift_gating (schema : SchemaConfig)
    (cfg : DataValidationConfig) (ingestion : DataIngestionArtifact)
    (read : String → Except PyError DataFrame)
    (ks : List ℚ → List ℚ → Except PyError ℚ) (writeOk : String → Bool)
    (train test : DataFrame) (artifact : DataValidationArtifact)
    (writes : List FileWrite)
    (htr : read ingestion.trained_file_path = Except.ok train)
    (hte : read ingestion.test_file_path = Except.ok test)
    (h : initiate_data_validation schema cfg ingestion read ks writeOk =
      Except.ok (artifact, writes)) :
    (artifact.validation_status = true →
      ∃ ds report,
        detect_dataset_drift cfg ks writeOk train test (mkRat 1 20) =
          Except.ok (ds, [(cfg.drift_report_file_path, FileContent.yaml report)]) ∧
        (cfg.drift_report_file_path, FileContent.yaml report) ∈ writes) ∧
    (artifact.validation_status = false →
      ∀ p r, (p, FileContent.yaml r) ∉ writes) := by
  obtain ⟨-, htrue, hfalse⟩ := initiate_ok_spec schema cfg ingestion read ks writeOk
    train test artifact writes htr hte h
  constructor
  · intro hs
    obtain ⟨ds, report, hdet, hw⟩ := htrue hs
    refine ⟨ds, report, hdet, ?_⟩
    rw [hw]
    simp
  · intro hs p r hmem
    rw [hfalse hs] at hmem
    simp [List.mem_cons, Prod.mk.injEq] at hmem

/-- Witness for the C4 theorem: the sample run, whose status is true and
whose writes contain the drift-report write. -/
theorem initiate_drift_gating_witness :
    (sampleArtifact.validation_status = true →
      ∃ ds report,
        detect_dataset_drift sampleCfg sampleKs (fun _ => true) sampleTrain
            sampleTest (mkRat 1 20) =
          Except.ok (ds, [(sampleCfg.drift_report_file_path, FileContent.yaml report)]) ∧
        (sampleCfg.drift_report_file_path, FileContent.yaml report) ∈ sampleWrites) ∧
    (sampleArtifact.validation_status = false →
      ∀ p r, (p, FileContent.yaml r) ∉ sampleWrites) :=
  initiate_drift_gating sampleSchema sampleCfg sampleIngestion sampleRead
    sampleKs (fun _ => true) sampleTrain sampleTest sampleArtifact sampleWrites
    (by decide) (by decide) (by decide)

/-- C3: on a successful orchestrator run with a configuration laying out
its destination files as the spec describes (inside the destination
directory, under the original input basename) and with the two destination
directories not containing each other's files, the dataset writes are
routed solely by `validation_status`: when it is true they are exactly the
unmodified train and test dataframes under the valid-data directory under
their original basenames, and no dataset write lies under the invalid-data
directory; when it is false the converse holds symmetrically. -/
theorem initiate_routing (schema : SchemaConfig)
    (cfg : DataValidationConfig) (ingestion : DataIngestionArtifact)
    (read : String → Except PyError DataFrame)
    (ks : List ℚ → List ℚ → Except PyError ℚ) (writeOk : String → Bool)
    (train test : DataFrame) (artifact : DataValidationArtifact)
    (writes : List FileWrite)
    (htr : read ingestion.trained_file_path = Except.ok train)
    (hte : read ingestion.test_file_path = Except.ok test)
    (hspec : SpecConfigPaths cfg ingestion)
    (hdv1 : underDir cfg.invalid_data_dir cfg.valid_train_file_path = false)
    (hdv2 : underDir cfg.invalid_data_dir cfg.valid_test_file_path = false)
    (hdi1 : underDir cfg.valid_data_dir cfg.invalid_train_file_path = false)
    (hdi2 : underDir cfg.valid_data_dir cfg.invalid_test_file_path = false)
    (h : initiate_data_validation schema cfg ingestion read ks writeOk =
      Except.ok (artifact, writes)) :
    (artifact.validation_status = true →
      csvWrites writes =
        [((cfg.valid_data_dir ++ "/") ++ basename ingestion.trained_file_path,
            FileContent.csv train),
         ((cfg.valid_data_dir ++ "/") ++ basename ingestion.test_file_path,
            FileContent.csv test)] ∧
      ∀ w ∈ csvWrites writes,
        underDir cfg.valid_data_dir w.1 = true ∧
        underDir cfg.invalid_data_dir w.1 = false) ∧
    (artifact.validation_status = false →
      csvWrites writes =
        [((cfg.invalid_data_dir ++ "/") ++ basename ingestion.trained_file_path,
            FileContent.csv train),
         ((cfg.invalid_data_dir ++ "/") ++ basename ingestion.test_file_path,
            FileContent.csv test)] ∧
      ∀ w ∈ csvWrites writes,
        underDir cfg.invalid_data_dir w.1 = true ∧
        underDir cfg.valid_data_dir w.1 = false) := by
  obtain ⟨hspec1, hspec2, hspec3, hspec4⟩ := hspec
  obtain ⟨-, htrue, hfalse⟩ := initiate_ok_spec schema cfg ingestion read ks writeOk
    train test artifact writes htr hte h
  constructor
  · intro hs
    obtain ⟨ds, report, -, hw⟩ := htrue hs
    have hcsv : csvWrites writes =
        [(cfg.valid_train_file_path, FileContent.csv train),
         (cfg.valid_test_file_path, FileContent.csv test)] := by
      rw [hw]; simp [csvWrites]
    rw [hcsv]
    constructor
    · rw [hspec1, hspec2]
    · intro w hwmem
      rcases List.mem_cons.mp hwmem with he | hwmem2
      · subst he
        exact ⟨by rw [hspec1]; exact underDir_append _ _, hdv1⟩
      · rcases List.mem_cons.mp hwmem2 with he | hwmem3
        · subst he
          exact ⟨by rw [hspec2]; exact underDir_append _ _, hdv2⟩
        · exact absurd hwmem3 (by simp)
  · intro hs
    have hcsv : csvWrites writes =
        [(cfg.invalid_train_file_path, FileContent.csv train),
         (cfg.invalid_test_file_path, FileContent.csv test)] := by
      rw [hfalse hs]; simp [csvWrites]
    rw [hcsv]
    constructor
    · rw [hspec3, hspec4]
    · intro w hwmem
      rcases List.mem_cons.mp hwmem with he | hwmem2
      · subst he
        exact ⟨by rw [hspec3]; exact underDir_append _ _, hdi1⟩
      · rcases List.mem_cons.mp hwmem2 with he | hwmem3
        · subst he
          exact ⟨by rw [hspec4]; exact underDir_append _ _, hdi2⟩
        · exact absurd hwmem3 (by simp)

/-- Witness for the C3 theorem: the sample run routes both datasets to the
valid-data directory under their original basenames. -/
theorem initiate_routing_witness :
    (sampleArtifact.validation_status = true →
      csvWrites sampleWrites =
        [((sampleCfg.valid_data_dir ++ "/") ++ basename sampleIngestion.trained_file_path,
            FileContent.csv sampleTrain),
         ((sampleCfg.valid_data_dir ++ "/") ++ basename sampleIngestion.test_file_path,
            FileContent.csv sampleTest)] ∧
      ∀ w ∈ csvWrites sampleWrites,
        underDir sampleCfg.valid_data_dir w.1 = true ∧
        underDir sampleCfg.invalid_data_dir w.1 = false) ∧
    (sampleArtifact.validation_status = false →
      csvWrites sampleWrites =
        [((sampleCfg.invalid_data_dir ++ "/") ++ basename sampleIngestion.trained_file_path,
            FileContent.csv sampleTrain),
         ((sampleCfg.invalid_data_dir ++ "/") ++ basename sampleIngestion.test_file_path,
            FileContent.csv sampleTest)] ∧
      ∀ w ∈ csvWrites sampleWrites,
        underDir sampleCfg.invalid_data_dir w.1 = true ∧
        underDir sampleCfg.valid_data_dir w.1 = false) :=
  initiate_routing sampleSchema sampleCfg sampleIngestion sampleRead
    sampleKs (fun _ => true) sampleTrain sampleTest sampleArtifact sampleWrites
    (by decide) (by decide) ⟨by decide, by decide, by decide, by decide⟩
    (by decide) (by decide) (by decide) (by decide) (by decide)

/-- C10: the artifact of a successful orchestrator run populates all six
fields from the configured values regardless of the status; when the
status is false the valid-data paths and the drift-report path were not
written during the run, and when it is true the invalid-data paths were
not written (assuming the five configured output paths are distinct). -/
theorem initiate_artifact_all_paths (schema : SchemaConfig)
    (cfg : DataValidationConfig) (ingestion : DataIngestionArtifact)
    (read : String → Except PyError DataFrame)
    (ks : List ℚ → List ℚ → Except PyError ℚ) (writeOk : String → Bool)
    (train test : DataFrame) (artifact : DataValidationArtifact)
    (writes : List FileWrite)
    (htr : read ingestion.trained_file_path = Except.ok train)
    (hte : read ingestion.test_file_path = Except.ok test)
    (hnd : ([cfg.valid_train_file_path, cfg.valid_test_file_path,
             cfg.invalid_train_file_path, cfg.invalid_test_file_path,
             cfg.drift_report_file_path] : List String).Nodup)
    (h : initiate_data_validation schema cfg ingestion read ks writeOk =
      Except.ok (artifact, writes)) :
    artifact.valid_train_file_path = cfg.valid_train_file_path ∧
    artifact.valid_test_file_path = cfg.valid_test_file_path ∧
    artifact.invalid_train_file_path = cfg.invalid_train_file_path ∧
    artifact.invalid_test_file_path = cfg.invalid_test_file_path ∧
    artifact.drift_report_file_path = cfg.drift_report_file_path ∧
    (artifact.validation_status = false →
      (∀ c, (cfg.valid_train_file_path, c) ∉ writes) ∧
      (∀ c, (cfg.valid_test_file_path, c) ∉ writes) ∧
      (∀ c, (cfg.drift_report_file_path, c) ∉ writes)) ∧
    (artifact.validation_status = true →
      (∀ c, (cfg.invalid_train_file_path, c) ∉ writes) ∧
      (∀ c, (cfg.invalid_test_file_path, c) ∉ writes)) := by
  simp only [List.nodup_cons, List.mem_cons, List.mem_singleton, not_or,
    List.nodup_nil, List.not_mem_nil, not_false_eq_true, and_true] at hnd
  obtain ⟨⟨hvt_vte, hvt_it, hvt_ite, hvt_dr⟩,
    ⟨hvte_it, hvte_ite, hvte_dr⟩, ⟨hit_ite, hit_dr⟩, hite_dr⟩ := hnd
  obtain ⟨ha, htrue, hfalse⟩ := initiate_ok_spec schema cfg ingestion read ks writeOk
    train test artifact writes htr hte h
  refine ⟨by rw [ha], by rw [ha], by rw [ha], by rw [ha], by rw [ha], ?_, ?_⟩
  · intro hs
    rw [hfalse hs]
    exact ⟨fun c => not_mem_pair_of_fst_ne _ _ _ c _ _ hvt_it hvt_ite,
      fun c => not_mem_pair_of_fst_ne _ _ _ c _ _ hvte_it hvte_ite,
      fun c => not_mem_pair_of_fst_ne _ _ _ c _ _
        (Ne.symm hit_dr) (Ne.symm hite_dr)⟩
  · intro hs
    obtain ⟨ds, report, -, hw⟩ := htrue hs
    rw [hw]
    exact ⟨fun c => not_mem_triple_of_fst_ne _ _ _ _ c _ _ _
        hit_dr (Ne.symm hvt_it) (Ne.symm hvte_it),
      fun c => not_mem_triple_of_fst_ne _ _ _ _ c _ _ _
        hite_dr (Ne.symm hvt_ite) (Ne.symm hvte_ite)⟩

/-- Witness for the C10 theorem: the sample run populates every artifact
field and writes nothing to the invalid-data paths. -/
theorem initiate_artifact_all_paths_witness :
    sampleArtifact.valid_train_file_path = sampleCfg.valid_train_file_path ∧
    sampleArtifact.valid_test_file_path = sampleCfg.valid_test_file_path ∧
    sampleArtifact.invalid_train_file_path = sampleCfg.invalid_train_file_path ∧
    sampleArtifact.invalid_test_file_path = sampleCfg.invalid_test_file_path ∧
    sampleArtifact.drift_report_file_path = sampleCfg.drift_report_file_path ∧
    (sampleArtifact.validation_status = false →
      (∀ c, (sampleCfg.valid_train_file_path, c) ∉ sampleWrites) ∧
      (∀ c, (sampleCfg.valid_test_file_path, c) ∉ sampleWrites) ∧
      (∀ c, (sampleCfg.drift_report_file_path, c) ∉ sampleWrites)) ∧
    (sampleArtifact.validation_status = true →
      (∀ c, (sampleCfg.invalid_train_file_path, c) ∉ sampleWrites) ∧
      (∀ c, (sampleCfg.invalid_test_file_path, c) ∉ sampleWrites)) :=
  initiate_artifact_all_paths sampleSchema sampleCfg sampleIngestion sampleRead
    sampleKs (fun _ => true) sampleTrain sampleTest sampleArtifact sampleWrites
    (by decide) (by decide) (by decide) (by decide)

/-- C8: every error arising during a validation run — a dataset read
failure, a filesystem failure while writing outputs, or a failure inside
the KS computation — surfaces as the single wrapped domain exception kind
`NetworkSecurityException`, and the orchestrator otherwise returns a
complete artifact with every field populated; there is no partial result. -/
theorem initiate_complete_or_raises (schema : SchemaConfig)
    (cfg : DataValidationConfig) (ingestion : DataIngestionArtifact)
    (read : String → Except PyError DataFrame)
    (ks : List ℚ → List ℚ → Except PyError ℚ) (writeOk : String → Bool) :
    (∃ e : NetworkSecurityException,
      initiate_data_validation schema cfg ingestion read ks writeOk =
        Except.error e) ∨
    (∃ artifact writes train test,
      read ingestion.trained_file_path = Except.ok train ∧
      read ingestion.test_file_path = Except.ok test ∧
      initiate_data_validation schema cfg ingestion read ks writeOk =
        Except.ok (artifact, writes) ∧
      artifact = { validation_status :=
                     validate_number_of_columns schema train &&
                     validate_number_of_columns schema test &&
                     is_numerical_column_exist schema train &&
                     is_numerical_column_exist schema test,
                   valid_train_file_path := cfg.valid_train_file_path,
                   valid_test_file_path := cfg.valid_test_file_path,
                   invalid_train_file_path := cfg.invalid_train_file_path,
                   invalid_test_file_path := cfg.invalid_test_file_path,
                   drift_report_file_path := cfg.drift_report_file_path }) := by
  cases hres : initiate_data_validation schema cfg ingestion read ks writeOk with
  | error e => exact Or.inl ⟨e, rfl⟩
  | ok pr =>
    obtain ⟨artifact, writes⟩ := pr
    obtain ⟨train, test, htr, hte⟩ :=
      initiate_ok_reads schema cfg ingestion read ks writeOk _ hres
    obtain ⟨ha, -, -⟩ := initiate_ok_spec schema cfg ingestion read ks writeOk
      train test artifact writes htr hte hres
    exact Or.inr ⟨artifact, writes, train, test, htr, hte, rfl, ha⟩

/-- Witness for the C9 theorem: base column "a" is absent from the current
dataframe, so drift detection raises the wrapped domain exception. -/
theorem detect_dataset_drift_requires_base_columns_witness :
    ∃ e : NetworkSecurityException,
      detect_dataset_drift
        ⟨"valid", "invalid", "valid/train.csv", "valid/test.csv",
          "invalid/train.csv", "invalid/test.csv", "drift/report.yaml"⟩
        (fun _ _ => Except.ok 1) (fun _ => true)
        ⟨[("a", [0])]⟩ ⟨[("b", [0])]⟩ (mkRat 1 20) = Except.error e :=
  (detect_dataset_drift_requires_base_columns
    ⟨"valid", "invalid", "valid/train.csv", "valid/test.csv",
      "invalid/train.csv", "invalid/test.csv", "drift/report.yaml"⟩
    (fun _ _ => Except.ok 1) (fun _ => true)
    ⟨[("a", [0])]⟩ ⟨[("b", [0])]⟩ (mkRat 1 20)).2 ⟨"a", by decide, by decide⟩

end NetworkSecurity
